import Mathlib

/-!
Shallow embedding of the sandboxed command-execution lifecycle manager of
pai-agent-sdk (src/pai_agent_sdk/sandbox/shell/base.py and docker_.py).

The container platform (docker-py) is external to the program; each of its
calls is modelled by an input describing the platform's response (a normal
result or a platform exception).  Bytes are modelled as lists of code
points, paths as strings, and the polling clock as a tick counter where one
tick is one fixed poll interval.
-/

instance {ε α : Type} [DecidableEq ε] [DecidableEq α] : DecidableEq (Except ε α) := fun x y =>
  match x, y with
  | .ok a, .ok b => if h : a = b then .isTrue (by simp [h]) else .isFalse (by simp [h])
  | .ok _, .error _ => .isFalse (by simp)
  | .error _, .ok _ => .isFalse (by simp)
  | .error a, .error b => if h : a = b then .isTrue (by simp [h]) else .isFalse (by simp [h])

/-- Platform-native (docker-py) exception kinds crossing the backend boundary. -/
inductive DockerExc where
  | imageNotFound (msg : String)
  | notFound (msg : String)
  | apiError (msg : String)
  | buildError (msg : String)
deriving DecidableEq, Repr

/-- Python exceptions observable from the sandbox layer.  The first three
mirror base.py's taxonomy (`SandboxStartTimeoutError` and
`SandboxExecuteTimeoutError` are subclasses of `SandboxTimeoutError`, itself
a subclass of `SandboxError`); `runtimeError` and `fileNotFoundError` are the
Python builtins raised by `DockerSandbox.build`; `docker` is a raw
platform-native exception escaping uncaught; `otherException` is any other
internal Python fault. -/
inductive Exc where
  | sandboxError (msg : String)
  | sandboxStartTimeoutError (msg : String)
  | sandboxExecuteTimeoutError (msg : String)
  | runtimeError (msg : String)
  | fileNotFoundError (msg : String)
  | docker (e : DockerExc)
  | otherException (msg : String)
deriving DecidableEq, Repr

/-- Membership in the `SandboxError` class hierarchy of base.py (an
`isinstance` check): the root and its two timeout subclasses. -/
def Exc.isSandboxError : Exc → Bool
  | .sandboxError _ => true
  | .sandboxStartTimeoutError _ => true
  | .sandboxExecuteTimeoutError _ => true
  | _ => false

/-- Whether an exception is a raw platform-native (docker-py) type. -/
def Exc.isDockerNative : Exc → Bool
  | .docker _ => true
  | _ => false

/-- Byte strings, modelled as lists of code points. -/
abbrev Bytes := List Nat

/-- Python's `str.encode`, modelled on code points. -/
def encodeBytes (s : String) : Bytes := s.data.map Char.toNat

/-- The (exit_code, stdout, stderr) triple returned by `execute`. -/
abbrev ExecResult := Int × Bytes × Bytes

/-- Modelled from the spec: `run_in_threadpool` (pai_agent_sdk.utils, a
module of this repository that is not part of the sources here) is the
Blocking-Call Bridge, which "accepts a zero-argument unit of work and
returns its result or propagates any failure it raises, unchanged".  In this
pure embedding it is therefore the identity on the work's outcome; the
deadline race of `asyncio.wait_for` is modelled separately at its one call
site in `execute`. -/
def run_in_threadpool (work : Except Exc α) : Except Exc α := work

/-- Configuration and instance state of `DockerSandbox.__init__`:
image name, Dockerfile path, build-context path, auto-build flag, and the
lazily created docker client (`None` until first use). -/
structure DockerSandbox where
  image_name : String
  dockerfile : String
  build_context : String
  auto_build : Bool
  client : Option Unit
deriving DecidableEq, Repr

/-- The `client` property's lazy initialization: on first use the docker
client is created and cached on the instance; afterwards the cached one is
returned.  Only the state effect is modelled. -/
def DockerSandbox.clientInit (sb : DockerSandbox) : DockerSandbox :=
  match sb.client with
  | some _ => sb
  | none => { sb with client := some () }

/-- Platform responses consumed by `DockerSandbox.build`:
the outcome of `client.images.get(image_name)` (ok means the image exists),
whether the Dockerfile exists on the host filesystem, and the outcome of
`client.images.build`. -/
structure BuildPlatform where
  getImage : Except DockerExc Unit
  dockerfileExists : Bool
  buildResult : Except DockerExc Unit
deriving Repr

/-- Which backend (docker client) calls `build` performed. -/
structure BuildLog where
  calledImagesGet : Bool
  calledImagesBuild : Bool
deriving DecidableEq, Repr

/-- The build phase of `DockerSandbox.build` after the image-existence
check: verify the Dockerfile exists (else `FileNotFoundError`), then build,
re-raising `docker.errors.BuildError` and `docker.errors.APIError` as
`RuntimeError` with the diagnostic attached; any other platform exception
propagates raw. -/
def DockerSandbox.buildPhase (sb : DockerSandbox) (p : BuildPlatform)
    (log : BuildLog) : Except Exc Unit × BuildLog :=
  if p.dockerfileExists = false then
    (.error (.fileNotFoundError ("Dockerfile not found: " ++ sb.dockerfile)), log)
  else
    match p.buildResult with
    | .ok _ => (.ok (), { log with calledImagesBuild := true })
    | .error (.buildError m) =>
        (.error (.runtimeError ("Build failed: " ++ m)), { log with calledImagesBuild := true })
    | .error (.apiError m) =>
        (.error (.runtimeError ("Docker API error during build: " ++ m)),
         { log with calledImagesBuild := true })
    | .error e => (.error (.docker e), { log with calledImagesBuild := true })

/-- `DockerSandbox.build`: unless forced, first check whether the image
already exists (skipping the build if it does; only `ImageNotFound` is
caught there, any other platform exception propagates raw), then run the
build phase. -/
def DockerSandbox.build (sb : DockerSandbox) (p : BuildPlatform) (force : Bool) :
    Except Exc Unit × BuildLog :=
  if force = false then
    match p.getImage with
    | .ok _ => (.ok (), { calledImagesGet := true, calledImagesBuild := false })
    | .error (.imageNotFound _) =>
        sb.buildPhase p { calledImagesGet := true, calledImagesBuild := false }
    | .error e =>
        (.error (.docker e), { calledImagesGet := true, calledImagesBuild := false })
  else
    sb.buildPhase p { calledImagesGet := false, calledImagesBuild := false }

/-- Python dicts with string keys and values, as finite maps. -/
def EnvMap := String → Option String

/-- The empty dict. -/
def EnvMap.empty : EnvMap := fun _ => none

/-- Binding one key in a dict (later binding wins). -/
def EnvMap.insert (m : EnvMap) (k v : String) : EnvMap :=
  fun x => if x = k then some v else m x

/-- Python's `dict.update`: fold the entries into the map, each entry
overwriting any earlier binding of the same key. -/
def EnvMap.update (m : EnvMap) (l : List (String × String)) : EnvMap :=
  l.foldl (fun acc kv => acc.insert kv.1 kv.2) m

/-- The container environment prepared by `DockerSandbox.start`: the
backend-mandated dict `{EXPIRE_SECONDS: str(expire_seconds), SHELL:
"/bin/bash"}` updated with the caller's `environment` (when truthy; an
update with the empty dict is a no-op in any case). -/
def DockerSandbox.containerEnv (environment : Option (List (String × String)))
    (expire_seconds : Int) : EnvMap :=
  let base := (EnvMap.empty.insert "EXPIRE_SECONDS" (toString expire_seconds)).insert
    "SHELL" "/bin/bash"
  match environment with
  | none => base
  | some l => base.update l

/-- One status probe of `_wait_for_ready`: `containers.get` + `reload`
either yield a status string, or raise `NotFound` or `APIError`. -/
inductive Probe where
  | status (s : String)
  | notFound
  | apiError (msg : String)
deriving DecidableEq, Repr

/-- Whether a probe result ends the polling loop (ready or terminal
failure) rather than being retried. -/
def Probe.terminalOrReady : Probe → Bool
  | .status s => s = "running" || s = "exited" || s = "dead"
  | .notFound => false
  | .apiError _ => false

/-- The loop of `DockerSandbox._wait_for_ready`, with time modelled as the
tick counter `n` (one tick = one poll interval; probes have zero latency,
each retry sleeps one tick).  While the deadline has not elapsed: probe;
`running` returns, `exited`/`dead` raise `SandboxError`, any other status
sleeps and retries; `NotFound` and `APIError` from the probe sleep and
retry, after re-checking the deadline as the source does.  Once the
deadline elapses, raise `SandboxStartTimeoutError`.  `fuel` is the
structural bound on remaining iterations; since `n` grows by one per
iteration the loop performs at most `timeout - n` iterations, and on exact
fuel the exhaustion case coincides with the deadline-elapsed exit of the
source loop. -/
def waitForReadyGo (probe : Nat → Probe) (timeout : Nat) :
    Nat → Nat → Except Exc Unit
  | 0, _ =>
    .error (.sandboxStartTimeoutError
      ("Container failed to become ready within " ++ toString timeout ++ "s"))
  | fuel + 1, n =>
    if n < timeout then
      match probe n with
      | .status s =>
        if s = "running" then .ok ()
        else if s = "exited" ∨ s = "dead" then
          .error (.sandboxError ("Container failed to start (status: " ++ s ++ ")"))
        else waitForReadyGo probe timeout fuel (n + 1)
      | .notFound =>
        if timeout ≤ n then
          .error (.sandboxStartTimeoutError
            ("Container failed to start within " ++ toString timeout ++ "s"))
        else waitForReadyGo probe timeout fuel (n + 1)
      | .apiError _ =>
        if timeout ≤ n then
          .error (.sandboxStartTimeoutError
            ("Container failed to start within " ++ toString timeout ++ "s"))
        else waitForReadyGo probe timeout fuel (n + 1)
    else
      .error (.sandboxStartTimeoutError
        ("Container failed to become ready within " ++ toString timeout ++ "s"))

/-- `DockerSandbox._wait_for_ready`: run the polling loop from tick 0 with
fuel equal to the deadline (the exact iteration bound of the loop). -/
def waitForReady (probe : Nat → Probe) (timeout : Nat) : Except Exc Unit :=
  waitForReadyGo probe timeout timeout 0

/-- Platform responses consumed by `DockerSandbox.start`: the build-step
responses, whether the (resolved) `working_dir` exists on the host, the
outcome of `client.containers.run` (a container id, or a platform
exception), and the status probes seen by `_wait_for_ready`. -/
structure StartPlatform where
  buildP : BuildPlatform
  workingDirExists : Bool
  runResult : Except DockerExc String
  probe : Nat → Probe

/-- Which backend calls `start` performed, and the environment dict passed
to `client.containers.run` when that call was made. -/
structure StartLog where
  calledImagesGet : Bool
  calledImagesBuild : Bool
  calledContainersRun : Bool
  provisionedEnv : Option EnvMap

/-- `timeout or 30` of `start`: `None` and the falsy `0` both give the
default 30. -/
def effectiveStartTimeout : Option Nat → Nat
  | none => 30
  | some v => if v = 0 then 30 else v

/-- `DockerSandbox._start_container`: fail fast with `SandboxError` when the
host working directory does not exist; otherwise call
`client.containers.run` (volume bind, env, detach, auto-remove, tty),
re-raising `ImageNotFound` and `APIError` as `SandboxError` and letting any
other platform exception propagate.  The second component records whether
the `containers.run` backend call happened. -/
def DockerSandbox.start_container (sb : DockerSandbox) (p : StartPlatform)
    (working_dir : String) (environment : EnvMap) :
    Except Exc String × Bool :=
  if p.workingDirExists = false then
    (.error (.sandboxError ("Working directory does not exist: " ++ working_dir)), false)
  else
    (run_in_threadpool (match p.runResult with
      | .ok cid => .ok cid
      | .error (.imageNotFound _) =>
          .error (.sandboxError ("Docker image not found: " ++ sb.image_name))
      | .error (.apiError m) =>
          .error (.sandboxError ("Failed to start container: " ++ m))
      | .error e => .error (.docker e)), true)

/-- Assembles the call log of `start` from the build-step log, whether
`containers.run` was reached, and the environment dict it would have been
(and, when reached, was) provisioned with. -/
def mkStartLog (b : BuildLog) (ran : Bool) (env : EnvMap) : StartLog :=
  { calledImagesGet := b.calledImagesGet, calledImagesBuild := b.calledImagesBuild,
    calledContainersRun := ran,
    provisionedEnv := if ran then some env else none }

/-- `DockerSandbox.start`: build the image when `auto_build` is set
(propagating any build failure unchanged through the bridge), prepare the
container environment, launch the container via `_start_container`, then
poll `_wait_for_ready` under `timeout or 30`; returns the container id.
The log records the backend calls made along the way. -/
def DockerSandbox.start (sb : DockerSandbox) (p : StartPlatform)
    (working_dir : String) (environment : Option (List (String × String)))
    (timeout : Option Nat) (expire_seconds : Int) :
    Except Exc String × StartLog :=
  let b := if sb.auto_build then sb.build p.buildP false
           else (.ok (), { calledImagesGet := false, calledImagesBuild := false })
  let container_env := DockerSandbox.containerEnv environment expire_seconds
  match run_in_threadpool b.1 with
  | .error e => (.error e, mkStartLog b.2 false container_env)
  | .ok _ =>
    match sb.start_container p working_dir container_env with
    | (.error e, ran) => (.error e, mkStartLog b.2 ran container_env)
    | (.ok cid, ran) =>
      match waitForReady p.probe (effectiveStartTimeout timeout) with
      | .ok _ => (.ok cid, mkStartLog b.2 ran container_env)
      | .error e => (.error e, mkStartLog b.2 ran container_env)

/-- Platform response consumed by `DockerSandbox.stop`: `containers.get`
followed by `container.stop(timeout=10)` either succeed, or raise
`NotFound` or `APIError`. -/
inductive StopOutcome where
  | stopped
  | notFound
  | apiError (msg : String)
deriving DecidableEq, Repr

/-- `DockerSandbox.stop`: stop the container with a 10s grace period,
re-raising `NotFound` and `APIError` as `SandboxError`. -/
def DockerSandbox.stop (sb : DockerSandbox) (container_id : String)
    (p : StopOutcome) : Except Exc Unit :=
  run_in_threadpool (match p with
    | .stopped => .ok ()
    | .notFound => .error (.sandboxError ("Container not found: " ++ container_id))
    | .apiError m => .error (.sandboxError ("Failed to stop container: " ++ m)))

/-- The `result.output` of `exec_run(demux=True)` as defensively handled by
the source: a (stdout?, stderr?) pair, a combined byte string, or `None`. -/
inductive ExecOutput where
  | demuxed (out err : Option Bytes)
  | combined (data : Bytes)
  | noneOutput
deriving DecidableEq, Repr

/-- Platform response consumed by `_exec_command`: the command ran and
`exec_run` returned (exit code, output); or `containers.get`/`exec_run`
raised `NotFound` or `APIError`; or some other internal exception was
raised inside the work. -/
inductive ExecOutcome where
  | ran (exit_code : Int) (output : ExecOutput)
  | notFound
  | apiError (msg : String)
  | otherError (msg : String)
deriving DecidableEq, Repr

/-- The inner `_exec_command` closure of `execute`: demultiplex the output
(attributing combined-only output wholly to stdout), substituting `b""` for
missing channels; report `NotFound` and `APIError` as a failed result
`(1, b"", message)` instead of raising; let any other exception propagate
out of the work. -/
def DockerSandbox._exec_command (outcome : ExecOutcome) : Except Exc ExecResult :=
  match outcome with
  | .ran code output =>
    match output with
    | .demuxed out err => .ok (code, out.getD [], err.getD [])
    | .combined data => .ok (code, data, [])
    | .noneOutput => .ok (code, [], [])
  | .notFound => .ok (1, [], encodeBytes "Container not found")
  | .apiError m => .ok (1, [], encodeBytes m)
  | .otherError m => .error (.otherException m)

/-- The guard `if timeout and timeout > 0` of `execute` under Python
truthiness: `None` and `0` are falsy, otherwise compare with zero. -/
def timeoutArmed : Option Int → Bool
  | none => false
  | some t => decide (t ≠ 0) && decide (0 < t)

/-- Rendering of the `timeout` argument inside the timeout message
(`f"Command timeout: {timeout}s"`). -/
def timeoutRepr : Option Int → String
  | none => "None"
  | some t => toString t

/-- `DockerSandbox.execute`: run `_exec_command` through the bridge, raced
against the deadline only when `timeout` is truthy and positive
(`timerFires` says whether an armed deadline expired before the work
completed).  A fired deadline raises `SandboxExecuteTimeoutError`; any
exception propagating from the work is re-raised as plain
`SandboxError("Command execution failed")`; otherwise the work's result is
returned. -/
def DockerSandbox.execute (sb : DockerSandbox) (container_id : String)
    (command : List String) (timeout : Option Int) (outcome : ExecOutcome)
    (timerFires : Bool) : Except Exc ExecResult :=
  if timeoutArmed timeout && timerFires then
    .error (.sandboxExecuteTimeoutError ("Command timeout: " ++ timeoutRepr timeout ++ "s"))
  else
    match run_in_threadpool (DockerSandbox._exec_command outcome) with
    | .ok r => .ok r
    | .error _ => .error (.sandboxError "Command execution failed")

/-- `DockerSandbox.execute` with its effect on the instance: the work
touches `self.client`, whose lazy initialization is the only possible
instance-state effect of the call. -/
def DockerSandbox.executeS (sb : DockerSandbox) (container_id : String)
    (command : List String) (timeout : Option Int) (outcome : ExecOutcome)
    (timerFires : Bool) : Except Exc ExecResult × DockerSandbox :=
  (sb.execute container_id command timeout outcome timerFires, sb.clientInit)

/-- `Sandbox.get_executor` (base.py): return a closure binding
`container_id` that forwards `(command, timeout)` — and, in this embedding,
the platform response and deadline inputs of the forwarded call — to
`self.execute`. -/
def Sandbox.get_executor
    (execute : String → List String → Option Int → ExecOutcome → Bool → Except Exc ExecResult)
    (container_id : String) :
    List String → Option Int → ExecOutcome → Bool → Except Exc ExecResult :=
  fun command timeout outcome timerFires =>
    execute container_id command timeout outcome timerFires

/-- Last-wins lookup of a key in an association list, matching Python dict
update semantics. -/
def lookupLast (l : List (String × String)) (k : String) : Option String :=
  l.foldl (fun acc kv => if kv.1 = k then some kv.2 else acc) none

/-- The environment map the spec mandates for provisioning, written from
the spec's words for comparison with the source-derived
`DockerSandbox.containerEnv`: the backend-mandated map (`EXPIRE_SECONDS`
bound to the decimal string of `expire_seconds`, `SHELL` bound to the
default shell path) overridden by the caller's entries, the caller winning
every key collision. -/
def specMergedEnv (environment : Option (List (String × String)))
    (expire_seconds : Int) : String → Option String :=
  fun k =>
    match lookupLast (match environment with | none => [] | some l => l) k with
    | some v => some v
    | none =>
      if k = "EXPIRE_SECONDS" then some (toString expire_seconds)
      else if k = "SHELL" then some "/bin/bash"
      else none

/-! ### Concrete fixtures used by witnesses and counterexamples -/

/-- A default-configured sandbox (auto-build on, client not yet created). -/
def sbDefault : DockerSandbox := ⟨"pai-sandbox:latest", "Dockerfile", ".", true, none⟩

/-- A sandbox with auto-build off. -/
def sbNoBuild : DockerSandbox := ⟨"pai-sandbox:latest", "Dockerfile", ".", false, none⟩

/-- A platform where the image is absent and the Dockerfile is missing. -/
def platNoDockerfile : StartPlatform :=
  ⟨⟨.error (.imageNotFound "img"), false, .ok ()⟩, true, .ok "cid123",
   fun _ => .status "running"⟩

/-- A platform where everything succeeds except that the working directory
does not exist. -/
def platMissingDir : StartPlatform :=
  ⟨⟨.ok (), true, .ok ()⟩, false, .ok "cid123", fun _ => .status "running"⟩

/-- A platform where start succeeds outright. -/
def platOkStart : StartPlatform :=
  ⟨⟨.ok (), true, .ok ()⟩, true, .ok "cid123", fun _ => .status "running"⟩

/-! ### Claims -/

/-- Claim C3: for every `execute` call, a platform-detected fault
(environment not found, platform API error) is returned as a result with
non-zero exit code and the fault text in stderr rather than raised; expiry
of an armed (positive) timeout raises `SandboxExecuteTimeoutError`; any
other internal fault raises plain `SandboxError`; and those are the only
two conditions under which `execute` raises. -/
theorem claim_C3 (sb : DockerSandbox) (cid : String) (cmd : List String)
    (t : Option Int) (f : Bool) :
    ((timeoutArmed t && f) = false →
      sb.execute cid cmd t .notFound f = .ok (1, [], encodeBytes "Container not found")
      ∧ (∀ m, sb.execute cid cmd t (.apiError m) f = .ok (1, [], encodeBytes m))
      ∧ (∀ m, sb.execute cid cmd t (.otherError m) f
          = .error (.sandboxError "Command execution failed")))
    ∧ ((timeoutArmed t && f) = true → ∀ oc, sb.execute cid cmd t oc f
        = .error (.sandboxExecuteTimeoutError
            ("Command timeout: " ++ timeoutRepr t ++ "s")))
    ∧ (∀ oc e, sb.execute cid cmd t oc f = .error e →
        (timeoutArmed t = true ∧ f = true
          ∧ e = .sandboxExecuteTimeoutError ("Command timeout: " ++ timeoutRepr t ++ "s"))
        ∨ (e = .sandboxError "Command execution failed" ∧ ∃ m, oc = .otherError m)) := by
  refine ⟨?_, ?_, ?_⟩
  · intro h
    refine ⟨?_, ?_, ?_⟩ <;>
      simp [DockerSandbox.execute, h, run_in_threadpool, DockerSandbox._exec_command]
  · intro h oc
    simp [DockerSandbox.execute, h]
  · intro oc e he
    by_cases h : (timeoutArmed t && f) = true
    · left
      simp [DockerSandbox.execute, h] at he
      exact ⟨(Bool.and_eq_true _ _ |>.mp h).1, (Bool.and_eq_true _ _ |>.mp h).2, he.symm⟩
    · right
      rw [Bool.not_eq_true] at h
      cases oc with
      | ran code output =>
        cases output <;>
          simp [DockerSandbox.execute, h, run_in_threadpool,
            DockerSandbox._exec_command] at he
      | notFound =>
        simp [DockerSandbox.execute, h, run_in_threadpool,
          DockerSandbox._exec_command] at he
      | apiError m =>
        simp [DockerSandbox.execute, h, run_in_threadpool,
          DockerSandbox._exec_command] at he
      | otherError m =>
        simp [DockerSandbox.execute, h, run_in_threadpool,
          DockerSandbox._exec_command] at he
        exact ⟨he.symm, m, rfl⟩

/-- Witness for C3 at concrete inputs: a NotFound fault is reported as a
failed result, and a fired armed deadline raises the timeout error. -/
theorem claim_C3_witness :
    DockerSandbox.execute sbDefault "cid123" ["ls"] (some 5) .notFound false
      = .ok (1, [], encodeBytes "Container not found")
    ∧ DockerSandbox.execute sbDefault "cid123" ["ls"] (some 5) .notFound true
      = .error (.sandboxExecuteTimeoutError "Command timeout: 5s") :=
  ⟨((claim_C3 sbDefault "cid123" ["ls"] (some 5) false).1 (by decide)).1,
   (claim_C3 sbDefault "cid123" ["ls"] (some 5) true).2.1 (by decide) .notFound⟩

/-- Claim C6: stopping a handle the platform reports as not currently
existing raises `SandboxError`; a platform API error during stop also
raises `SandboxError`; every stop failure is a `SandboxError`. -/
theorem claim_C6 (sb : DockerSandbox) (cid : String) :
    sb.stop cid .notFound = .error (.sandboxError ("Container not found: " ++ cid))
    ∧ (∀ m, sb.stop cid (.apiError m)
        = .error (.sandboxError ("Failed to stop container: " ++ m)))
    ∧ (∀ p e, sb.stop cid p = .error e → e.isSandboxError = true) := by
  refine ⟨rfl, fun m => rfl, ?_⟩
  intro p e he
  cases p <;> simp [DockerSandbox.stop, run_in_threadpool] at he <;>
    simp [← he, Exc.isSandboxError]

/-- Witness for C6 at a concrete input: stopping a nonexistent handle fails
with a `SandboxError`. -/
theorem claim_C6_witness :
    DockerSandbox.stop sbDefault "gone" .notFound
      = .error (.sandboxError "Container not found: gone")
    ∧ Exc.isSandboxError (.sandboxError "Container not found: gone") = true :=
  ⟨(claim_C6 sbDefault "gone").1,
   (claim_C6 sbDefault "gone").2.2 .notFound _ (claim_C6 sbDefault "gone").1⟩

/-- Claim C7: when the platform returns combined-only (non-demultiplexed)
output, the whole byte string goes to stdout and stderr is empty. -/
theorem claim_C7 (sb : DockerSandbox) (cid : String) (cmd : List String)
    (t : Option Int) (f : Bool) (code : Int) (data : Bytes)
    (h : (timeoutArmed t && f) = false) :
    sb.execute cid cmd t (.ran code (.combined data)) f = .ok (code, data, []) := by
  simp [DockerSandbox.execute, h, run_in_threadpool, DockerSandbox._exec_command]

/-- Witness for C7 at a concrete input. -/
theorem claim_C7_witness :
    DockerSandbox.execute sbDefault "cid123" ["ls"] (some 5)
      (.ran 0 (.combined (encodeBytes "all output"))) false
      = .ok (0, encodeBytes "all output", []) :=
  claim_C7 sbDefault "cid123" ["ls"] (some 5) false 0 (encodeBytes "all output") (by decide)

/-- Claim C8: the closure returned by `get_executor(handle)` applied to any
command, timeout (and platform response) gives exactly the result of
calling `execute` directly with the bound handle; it is a pure function of
the sandbox and the handle. -/
theorem claim_C8 (sb : DockerSandbox) (cid : String) (cmd : List String)
    (t : Option Int) (oc : ExecOutcome) (f : Bool) :
    Sandbox.get_executor (sb.execute) cid cmd t oc f = sb.execute cid cmd t oc f := rfl

/-- Claim C10: with a timeout of zero, negative, or absent, no deadline is
armed: the result is independent of whether the wall-clock deadline would
have expired, and `SandboxExecuteTimeoutError` can never be raised; only a
strictly positive timeout arms the deadline race. -/
theorem claim_C10 (sb : DockerSandbox) (cid : String) (cmd : List String)
    (t : Option Int) (oc : ExecOutcome) (f : Bool) (h : timeoutArmed t = false) :
    sb.execute cid cmd t oc f = sb.execute cid cmd t oc false
    ∧ (∀ m, sb.execute cid cmd t oc f ≠ .error (.sandboxExecuteTimeoutError m))
    ∧ (∀ v : Int, timeoutArmed (some v) = true ↔ 0 < v) := by
  refine ⟨by simp [DockerSandbox.execute, h], ?_, ?_⟩
  · intro m
    cases oc with
    | ran code output =>
      cases output <;>
        simp [DockerSandbox.execute, h, run_in_threadpool, DockerSandbox._exec_command]
    | notFound =>
      simp [DockerSandbox.execute, h, run_in_threadpool, DockerSandbox._exec_command]
    | apiError m2 =>
      simp [DockerSandbox.execute, h, run_in_threadpool, DockerSandbox._exec_command]
    | otherError m2 =>
      simp [DockerSandbox.execute, h, run_in_threadpool, DockerSandbox._exec_command]
  · intro v
    simp only [timeoutArmed, Bool.and_eq_true, decide_eq_true_eq]
    constructor
    · intro hv; exact hv.2
    · intro hv; exact ⟨by omega, hv⟩

/-- Witness for C10 at a concrete input: a negative timeout arms nothing,
so a would-be deadline expiry is ignored. -/
theorem claim_C10_witness :
    DockerSandbox.execute sbDefault "cid123" ["sleep", "99"] (some (-3))
        (.ran 0 .noneOutput) true
      = DockerSandbox.execute sbDefault "cid123" ["sleep", "99"] (some (-3))
        (.ran 0 .noneOutput) false :=
  (claim_C10 sbDefault "cid123" ["sleep", "99"] (some (-3)) (.ran 0 .noneOutput) true
    (by decide)).1

/-- Counterexample to C9 as stated: on an instance whose docker client has
not yet been created, `execute` mutates the instance — the lazy `client`
property caches the newly created client on first use, so the instance
state is not identical before and after the call. -/
theorem claim_C9_cex :
    (DockerSandbox.executeS sbDefault "cid123" ["ls"] none (.ran 0 .noneOutput)
      false).2 ≠ sbDefault := by decide

/-- Claim C9 (amended): `execute` never mutates the configuration fields
(image name, recipe path, context path, auto-build flag); the only possible
mutation is the one-time lazy creation of the backend client handle on
first use, so on an instance whose client already exists the state is
identical before and after the call, whether it returns or raises. -/
theorem claim_C9 (sb : DockerSandbox) (cid : String) (cmd : List String)
    (t : Option Int) (oc : ExecOutcome) (f : Bool) :
    ((sb.executeS cid cmd t oc f).2.image_name = sb.image_name
      ∧ (sb.executeS cid cmd t oc f).2.dockerfile = sb.dockerfile
      ∧ (sb.executeS cid cmd t oc f).2.build_context = sb.build_context
      ∧ (sb.executeS cid cmd t oc f).2.auto_build = sb.auto_build)
    ∧ (∀ c, sb.client = some c → (sb.executeS cid cmd t oc f).2 = sb)
    ∧ (sb.client = none →
        (sb.executeS cid cmd t oc f).2 = { sb with client := some () }) := by
  refine ⟨?_, ?_, ?_⟩
  · cases hc : sb.client <;>
      simp [DockerSandbox.executeS, DockerSandbox.clientInit, hc]
  · intro c hc
    simp [DockerSandbox.executeS, DockerSandbox.clientInit, hc]
  · intro hc
    simp [DockerSandbox.executeS, DockerSandbox.clientInit, hc]

/-- Witness for C9 at a concrete input: on an instance whose client already
exists, `execute` leaves the whole instance unchanged. -/
theorem claim_C9_witness :
    (DockerSandbox.executeS ⟨"pai-sandbox:latest", "Dockerfile", ".", true, some ()⟩
      "cid123" ["ls"] none (.ran 0 .noneOutput) false).2
      = ⟨"pai-sandbox:latest", "Dockerfile", ".", true, some ()⟩ :=
  (claim_C9 ⟨"pai-sandbox:latest", "Dockerfile", ".", true, some ()⟩
    "cid123" ["ls"] none (.ran 0 .noneOutput) false).2.1 () rfl

/-- If every probe before the deadline is non-terminal (any status other
than running/exited/dead, a NotFound, or an APIError), the polling loop
ends in `SandboxStartTimeoutError`, at any point of the loop and with any
remaining fuel. -/
theorem waitForReadyGo_nonTerminal (probe : Nat → Probe) (t : Nat)
    (h : ∀ i, i < t → (probe i).terminalOrReady = false) :
    ∀ fuel n, ∃ m, waitForReadyGo probe t fuel n
      = .error (.sandboxStartTimeoutError m) := by
  intro fuel
  induction fuel with
  | zero => intro n; exact ⟨_, rfl⟩
  | succ fuel ih =>
    intro n
    by_cases hn : n < t
    · have hp := h n hn
      cases hpn : probe n with
      | status s =>
        rw [hpn] at hp
        simp only [Probe.terminalOrReady, Bool.or_eq_false_iff, decide_eq_false_iff_not] at hp
        simpa [waitForReadyGo, hn, hpn, hp.1.1, hp.1.2, hp.2] using ih (n + 1)
      | notFound =>
        simpa [waitForReadyGo, hn, hpn, Nat.not_le.mpr hn] using ih (n + 1)
      | apiError m =>
        simpa [waitForReadyGo, hn, hpn, Nat.not_le.mpr hn] using ih (n + 1)
    · exact ⟨"Container failed to become ready within " ++ toString t ++ "s",
        by simp [waitForReadyGo, hn]⟩

/-- Claim C4: in the readiness-polling loop under deadline `t`, a probe
reporting `running` returns success at once; a probe reporting `exited` or
`dead` raises `SandboxError` at once, with no further retry; a `not_found`
probe before the deadline is retried after the fixed interval (the loop at
that tick equals the loop restarted at the next tick); and if no probe
before the deadline is terminal, the poller ends in
`SandboxStartTimeoutError`. -/
theorem claim_C4 (probe : Nat → Probe) (t : Nat) :
    (∀ n fuel, n < t → probe n = .status "running" →
      waitForReadyGo probe t (fuel + 1) n = .ok ())
    ∧ (∀ n fuel s, n < t → probe n = .status s → s = "exited" ∨ s = "dead" →
      waitForReadyGo probe t (fuel + 1) n
        = .error (.sandboxError ("Container failed to start (status: " ++ s ++ ")")))
    ∧ (∀ n fuel, n < t → probe n = .notFound →
      waitForReadyGo probe t (fuel + 1) n = waitForReadyGo probe t fuel (n + 1))
    ∧ ((∀ i, i < t → (probe i).terminalOrReady = false) →
      ∃ m, waitForReady probe t = .error (.sandboxStartTimeoutError m)) := by
  refine ⟨?_, ?_, ?_, ?_⟩
  · intro n fuel hn hp
    simp [waitForReadyGo, hn, hp]
  · intro n fuel s hn hp hs
    have hs1 : s ≠ "running" := by rcases hs with h | h <;> simp [h]
    simp [waitForReadyGo, hn, hp, hs1, hs]
  · intro n fuel hn hp
    simp [waitForReadyGo, hn, hp, Nat.not_le.mpr hn]
  · intro h
    exact waitForReadyGo_nonTerminal probe t h t 0

/-- Witness for C4 at concrete inputs: a first probe reporting `running`
succeeds; a handle the platform never registers exhausts a 2-tick deadline
with `SandboxStartTimeoutError`. -/
theorem claim_C4_witness :
    waitForReadyGo (fun _ => .status "running") 3 (2 + 1) 0 = .ok ()
    ∧ ∃ m, waitForReady (fun _ => .notFound) 2
        = .error (.sandboxStartTimeoutError m) :=
  ⟨(claim_C4 (fun _ => .status "running") 3).1 0 2 (by decide) rfl,
   (claim_C4 (fun _ => .notFound) 2).2.2.2 (fun i _ => rfl)⟩

/-- Folding the last-wins lookup over a list from any accumulator: the
accumulator only matters when no entry of the list binds the key. -/
theorem lookupLast_acc (k : String) (l : List (String × String)) :
    ∀ acc : Option String,
      l.foldl (fun a kv => if kv.1 = k then some kv.2 else a) acc
      = match lookupLast l k with
        | some v => some v
        | none => acc := by
  induction l with
  | nil => intro acc; rfl
  | cons kv rest ih =>
    intro acc
    show rest.foldl _ (if kv.1 = k then some kv.2 else acc) = _
    rw [ih]
    have hrest : lookupLast (kv :: rest) k
        = match lookupLast rest k with
          | some v => some v
          | none => if kv.1 = k then some kv.2 else none := by
      show rest.foldl _ (if kv.1 = k then some kv.2 else none) = _
      rw [ih]
    rw [hrest]
    cases lookupLast rest k with
    | some v => rfl
    | none => by_cases hk : kv.1 = k <;> simp [hk]

/-- Python's `dict.update` against a base map, pointwise: an entry of the
update list (its last binding) wins; otherwise the base map's binding
stands. -/
theorem EnvMap.update_apply (l : List (String × String)) :
    ∀ (m : EnvMap) (k : String),
      EnvMap.update m l k
      = match lookupLast l k with
        | some v => some v
        | none => m k := by
  induction l with
  | nil => intro m k; rfl
  | cons kv rest ih =>
    intro m k
    show EnvMap.update (m.insert kv.1 kv.2) rest k = _
    rw [ih]
    have hrest : lookupLast (kv :: rest) k
        = match lookupLast rest k with
          | some v => some v
          | none => if kv.1 = k then some kv.2 else none := by
      show rest.foldl _ (if kv.1 = k then some kv.2 else none) = _
      rw [lookupLast_acc]
    rw [hrest]
    cases lookupLast rest k with
    | some v => rfl
    | none =>
      by_cases hk : kv.1 = k
      · simp [EnvMap.insert, hk]
      · have hk2 : ¬k = kv.1 := fun hh => hk hh.symm
        simp [EnvMap.insert, hk, hk2]

/-- The container environment built by `start` coincides pointwise with the
spec-mandated merged map. -/
theorem containerEnv_eq_spec (environment : Option (List (String × String)))
    (expire_seconds : Int) (k : String) :
    DockerSandbox.containerEnv environment expire_seconds k
      = specMergedEnv environment expire_seconds k := by
  have hbase : ((EnvMap.empty.insert "EXPIRE_SECONDS" (toString expire_seconds)).insert
      "SHELL" "/bin/bash") k
      = (if k = "EXPIRE_SECONDS" then some (toString expire_seconds)
         else if k = "SHELL" then some "/bin/bash"
         else none) := by
    by_cases h1 : k = "EXPIRE_SECONDS"
    · have h2 : k ≠ "SHELL" := by rw [h1]; decide
      simp [EnvMap.insert, EnvMap.empty, h1, h2]
    · by_cases h2 : k = "SHELL" <;> simp [EnvMap.insert, EnvMap.empty, h1, h2]
  cases environment with
  | none =>
    show ((EnvMap.empty.insert "EXPIRE_SECONDS" (toString expire_seconds)).insert
      "SHELL" "/bin/bash") k = _
    rw [hbase]
    rfl
  | some l =>
    show EnvMap.update _ l k = _
    rw [EnvMap.update_apply, hbase]
    rfl

/-- Every branch of `start` that records a provisioned environment records
exactly the map built by `DockerSandbox.containerEnv`. -/
theorem start_provisionedEnv (sb : DockerSandbox) (p : StartPlatform) (wd : String)
    (env : Option (List (String × String))) (t : Option Nat) (exp : Int) :
    (sb.start p wd env t exp).2.provisionedEnv = none
    ∨ (sb.start p wd env t exp).2.provisionedEnv
        = some (DockerSandbox.containerEnv env exp) := by
  have hlog : ∀ (b : BuildLog) (ran : Bool),
      (mkStartLog b ran (DockerSandbox.containerEnv env exp)).provisionedEnv = none
      ∨ (mkStartLog b ran (DockerSandbox.containerEnv env exp)).provisionedEnv
          = some (DockerSandbox.containerEnv env exp) := by
    intro b ran
    cases ran
    · left; rfl
    · right; rfl
  simp only [DockerSandbox.start]
  split
  · exact hlog _ false
  · split
    · exact hlog _ _
    · split
      · exact hlog _ _
      · exact hlog _ _

/-- Claim C5: whatever environment map `start` provisions into the
container is the backend-mandated map (`EXPIRE_SECONDS` bound to the
decimal string of `expire_seconds`, `SHELL` bound to the default shell
path) overridden by the caller's entries — on every key collision the
caller-supplied value wins. -/
theorem claim_C5 (sb : DockerSandbox) (p : StartPlatform) (wd : String)
    (env : Option (List (String × String))) (t : Option Nat) (exp : Int)
    (m : EnvMap) (h : (sb.start p wd env t exp).2.provisionedEnv = some m) :
    ∀ k, m k = specMergedEnv env exp k := by
  intro k
  rcases start_provisionedEnv sb p wd env t exp with h0 | h0
  · rw [h0] at h; cases h
  · rw [h0] at h
    have hm : DockerSandbox.containerEnv env exp = m := by
      injection h
    rw [← hm]
    exact containerEnv_eq_spec env exp k

/-- Witness for C5 at a concrete input: a successful `start` with a caller
binding that collides with the mandated `SHELL` key provisions exactly the
spec-merged map, and the caller's value wins the collision. -/
theorem claim_C5_witness :
    (DockerSandbox.containerEnv (some [("SHELL", "/bin/zsh")]) 300) "SHELL"
      = specMergedEnv (some [("SHELL", "/bin/zsh")]) 300 "SHELL"
    ∧ specMergedEnv (some [("SHELL", "/bin/zsh")]) 300 "SHELL" = some "/bin/zsh"
    ∧ specMergedEnv (some [("SHELL", "/bin/zsh")]) 300 "EXPIRE_SECONDS" = some "300" :=
  ⟨claim_C5 sbNoBuild platOkStart "/tmp/w" (some [("SHELL", "/bin/zsh")]) none 300
      (DockerSandbox.containerEnv (some [("SHELL", "/bin/zsh")]) 300) rfl "SHELL",
   by decide, by decide⟩

/-- Counterexample to C1 as stated: with the configured image absent and
the build recipe (Dockerfile) missing, `start` raises `FileNotFoundError`
— a non-SandboxError exception escaping to the caller, not a re-signaled
`SandboxError`; likewise an absent image with a platform build failure
makes `start` raise `RuntimeError`. -/
theorem claim_C1_cex :
    (sbDefault.start platNoDockerfile "/tmp/w" none none 300).1
      = .error (.fileNotFoundError "Dockerfile not found: Dockerfile")
    ∧ Exc.isSandboxError (.fileNotFoundError "Dockerfile not found: Dockerfile") = false
    ∧ (sbDefault.start
        ⟨⟨.error (.imageNotFound "img"), true, .error (.buildError "step 3 exploded")⟩,
         true, .ok "cid123", fun _ => .status "running"⟩ "/tmp/w" none none 300).1
      = .error (.runtimeError "Build failed: step 3 exploded")
    ∧ Exc.isSandboxError (.runtimeError "Build failed: step 3 exploded") = false := by
  refine ⟨by decide, by decide, by decide, by decide⟩

/-- Claim C1 (amended): for a sandbox whose configured image is absent, a
missing Dockerfile during the image-readiness step of `start` is
re-signaled as `FileNotFoundError` naming the missing path, and a platform
build failure (BuildError or APIError) as `RuntimeError` carrying the
platform diagnostic; on these paths no platform-native exception type
escapes, but these builtin exceptions are not `SandboxError`s and do escape
to the caller of `start`. -/
theorem claim_C1 (sb : DockerSandbox) (p : StartPlatform) (wd : String)
    (env : Option (List (String × String))) (t : Option Nat) (exp : Int)
    (hab : sb.auto_build = true) (mm : String)
    (hImg : p.buildP.getImage = .error (.imageNotFound mm)) :
    (p.buildP.dockerfileExists = false →
      (sb.start p wd env t exp).1
        = .error (.fileNotFoundError ("Dockerfile not found: " ++ sb.dockerfile)))
    ∧ (∀ bm, p.buildP.dockerfileExists = true →
        p.buildP.buildResult = .error (.buildError bm) →
      (sb.start p wd env t exp).1
        = .error (.runtimeError ("Build failed: " ++ bm)))
    ∧ (∀ am, p.buildP.dockerfileExists = true →
        p.buildP.buildResult = .error (.apiError am) →
      (sb.start p wd env t exp).1
        = .error (.runtimeError ("Docker API error during build: " ++ am)))
    ∧ (∀ msg, Exc.isDockerNative (.fileNotFoundError msg) = false
        ∧ Exc.isDockerNative (.runtimeError msg) = false
        ∧ Exc.isSandboxError (.fileNotFoundError msg) = false
        ∧ Exc.isSandboxError (.runtimeError msg) = false) := by
  refine ⟨?_, ?_, ?_, fun msg => ⟨rfl, rfl, rfl, rfl⟩⟩
  · intro h
    simp [DockerSandbox.start, DockerSandbox.build, DockerSandbox.buildPhase,
      run_in_threadpool, hab, hImg, h]
  · intro bm h hb
    simp [DockerSandbox.start, DockerSandbox.build, DockerSandbox.buildPhase,
      run_in_threadpool, hab, hImg, h, hb]
  · intro am h hb
    simp [DockerSandbox.start, DockerSandbox.build, DockerSandbox.buildPhase,
      run_in_threadpool, hab, hImg, h, hb]

/-- Witness for amended C1 at a concrete input: absent image plus missing
Dockerfile makes `start` raise `FileNotFoundError` with the path attached. -/
theorem claim_C1_witness :
    (sbDefault.start platNoDockerfile "/tmp/w" none none 300).1
      = .error (.fileNotFoundError "Dockerfile not found: Dockerfile") :=
  (claim_C1 sbDefault platNoDockerfile "/tmp/w" none none 300 rfl "img" rfl).1 rfl

/-- Counterexample to C2 as stated: with the default auto-build
configuration and a nonexistent working directory, `start` does raise
`SandboxError`, but only after the image-existence check — a backend call —
has already been made, contradicting "no backend call before failing". -/
theorem claim_C2_cex :
    (sbDefault.start platMissingDir "/missing" none none 300).1
      = .error (.sandboxError "Working directory does not exist: /missing")
    ∧ (sbDefault.start platMissingDir "/missing" none none 300).2.calledImagesGet
      = true := by
  refine ⟨by decide, by decide⟩

/-- Claim C2 (amended): for every nonexistent `working_dir`, `start` never
creates a container (no `containers.run` call, nothing provisioned), and —
whenever the image-readiness step itself does not fail first — raises
`SandboxError` naming the missing directory; however, when `auto_build` is
enabled the image-existence check, and possibly the image build, do occur
before this failure. -/
theorem claim_C2 (sb : DockerSandbox) (p : StartPlatform) (wd : String)
    (env : Option (List (String × String))) (t : Option Nat) (exp : Int)
    (h : p.workingDirExists = false) :
    (sb.start p wd env t exp).2.calledContainersRun = false
    ∧ (sb.start p wd env t exp).2.provisionedEnv = none
    ∧ ((sb.auto_build = true → (sb.build p.buildP false).1 = .ok ()) →
      (sb.start p wd env t exp).1
        = .error (.sandboxError ("Working directory does not exist: " ++ wd))) := by
  cases hab : sb.auto_build with
  | false =>
    refine ⟨?_, ?_, fun _ => ?_⟩ <;>
      simp [DockerSandbox.start, DockerSandbox.start_container, mkStartLog,
        run_in_threadpool, hab, h]
  | true =>
    cases hb : (sb.build p.buildP false).1 with
    | error e =>
      refine ⟨?_, ?_, ?_⟩
      · simp [DockerSandbox.start, run_in_threadpool, hab, hb, mkStartLog]
      · simp [DockerSandbox.start, run_in_threadpool, hab, hb, mkStartLog]
      · intro hok
        exact Except.noConfusion (hok rfl)
    | ok u =>
      refine ⟨?_, ?_, fun _ => ?_⟩ <;>
        simp [DockerSandbox.start, DockerSandbox.start_container, mkStartLog,
          run_in_threadpool, hab, hb, h]

/-- Witness for amended C2 at a concrete input: nonexistent working
directory, successful build step — `SandboxError`, no container created. -/
theorem claim_C2_witness :
    (sbDefault.start platMissingDir "/missing" none none 300).2.calledContainersRun
      = false
    ∧ (sbDefault.start platMissingDir "/missing" none none 300).1
      = .error (.sandboxError "Working directory does not exist: /missing") :=
  ⟨(claim_C2 sbDefault platMissingDir "/missing" none none 300 rfl).1,
   (claim_C2 sbDefault platMissingDir "/missing" none none 300 rfl).2.2
     (fun _ => rfl)⟩

